import Mathlib

/-!
Verification development for the asynchronous job lifecycle engine of the
article_generations repository.  The two pollers are translated from:
  * `pollTaskStatus` in the generation hook (src/unnamed/part_000, lines 70-157)
  * `pollFeedbackTask` in src/Frontend/src/hooks/useFeedback.js, lines 92-154
together with the submit operations `requestArticle` (part_000, lines 18-65),
`sendFeedback` (useFeedback.js, lines 15-86) and the form-level validation
`handleSubmit` (src/Frontend/src/components/ArticleRequestForm.jsx, lines 18-38).

Modelling conventions:
  * JavaScript string-falsiness (`x || d` where `x` is an optional string and
    the empty string is falsy) is modelled by `jsOr`.
  * A status-endpoint interaction is modelled by an environment
    `env : Nat -> StatusResp` giving the response to the k-th status query
    (0-based); `StatusResp.transportError` is a rejected request (the JS
    `catch` path), `StatusResp.envFailure` is a fulfilled request whose
    envelope has `success: false`, and `StatusResp.ok td` is a fulfilled
    request with `success: true` and data `td`.
  * Timer delays (`setTimeout(poll, interval)`) only sequence the next cycle;
    real time is not modelled, only the fact that the next cycle runs.
  * Each invocation of the recursive `poll` closure performs exactly one
    status query, so the query count of a run is the number of invocations.
-/

/-- JavaScript `x || d` for an optional string `x`: `undefined`/`null` and the
empty string are falsy, so they fall back to the default `d`. -/
def jsOr (x : Option String) (d : String) : String :=
  match x with
  | none => d
  | some v => if v = "" then d else v

/-- The embedded result object `taskData.result` of a status response, and
also the shape inspected by the response handlers.  Booleans model JS
truthiness of the corresponding fields:
`success`, `article_data` (used by `handleArticleResponse`), `article` and
`article_id` (used by `handleFeedbackResponse`); `error` is the optional
`result.error` message. -/
structure TaskResult where
  success : Bool
  error : Option String
  article_data : Bool
  article : Bool
  article_id : Bool
deriving DecidableEq

/-- The `data` object of a status-endpoint envelope:
`{ status, result?, error? }`. -/
structure TaskData where
  status : String
  result : Option TaskResult
  error : Option String
deriving DecidableEq

/-- One response of the status endpoint to one query. -/
inductive StatusResp
  | transportError
  | envFailure
  | ok (td : TaskData)
deriving DecidableEq

/-- Result of one poller run: the terminal outcome, the number of status
queries issued, and the final value of the `attempts` counter. -/
structure PollRes (α : Type) where
  outcome : α
  queries : Nat
  attempts : Nat
deriving DecidableEq

/-- Terminal outcomes of the generation poller `pollTaskStatus`
(src/unnamed/part_000).  Each constructor corresponds to one exit site of the
source: `success` is `handleArticleResponse(taskData.result)` storing the
article, `invalidData` is `handleArticleResponse` rejecting a result without
`article_data`, `completedWithErrors` is the completed-with-embedded-failure
`setError`, `taskFailed` is the `status === "failed"` branch, `timedOut` is
attempt exhaustion while processing/pending, `unknownTimedOut` is attempt
exhaustion on unrecognized statuses, `statusCheckFailed` is the
envelope-failure branch, and `pollErrorExhausted` is attempt exhaustion in the
`catch` handler. -/
inductive GenOutcome
  | success (r : TaskResult)
  | invalidData (msg : String)
  | completedWithErrors (msg : String)
  | taskFailed (msg : String)
  | timedOut (msg : String)
  | unknownTimedOut (msg : String)
  | statusCheckFailed (msg : String)
  | pollErrorExhausted (msg : String)
deriving DecidableEq

/-- Terminal outcomes of the feedback poller `pollFeedbackTask`
(src/Frontend/src/hooks/useFeedback.js).  `success` is
`resolve(handleFeedbackResponse(taskData.result))` with a decodable article,
`invalidData` is that same resolve path when `handleFeedbackResponse` returns
null after setting an error, `completedWithErrors`, `taskFailed` and
`timedOut` are the corresponding `reject` sites, `unknownStatus` is the
immediate rejection of an unrecognized status string, `statusCheckFailed` is
the envelope-failure rejection, and `transportRejected` is the `catch`
handler's immediate `reject(err)`. -/
inductive FbOutcome
  | success (r : TaskResult)
  | invalidData (msg : String)
  | completedWithErrors (msg : String)
  | taskFailed (msg : String)
  | timedOut (msg : String)
  | unknownStatus (msg : String)
  | statusCheckFailed (msg : String)
  | transportRejected
deriving DecidableEq

/-- Generation poller, translated from `pollTaskStatus` in
src/unnamed/part_000 (lines 70-157).  `attempts` is the mutable counter of the
source (incremented before each budget check, so the check is
`attempts + 1 < maxAttempts` in terms of the value on entry), `k` indexes the
status query being issued.  The `catch` branch (transport error) and the
processing/pending and unrecognized-status branches all increment the counter
and re-schedule `poll` while the budget allows; completed, failed and
envelope-failure branches exit without touching the counter. -/
def pollGen (env : Nat → StatusResp) (maxAttempts attempts k : Nat) :
    PollRes GenOutcome :=
  match env k with
  | .transportError =>
    if _h : attempts + 1 < maxAttempts then
      let r := pollGen env maxAttempts (attempts + 1) (k + 1)
      ⟨r.outcome, r.queries + 1, r.attempts⟩
    else
      ⟨.pollErrorExhausted "Failed to check task status - please try again",
        1, attempts + 1⟩
  | .envFailure => ⟨.statusCheckFailed "Failed to check task status", 1, attempts⟩
  | .ok td =>
    if td.status = "completed" then
      match td.result with
      | some r =>
        if r.success then
          if r.article_data then ⟨.success r, 1, attempts⟩
          else ⟨.invalidData "Invalid article data received", 1, attempts⟩
        else
          ⟨.completedWithErrors (jsOr r.error "Task completed with errors"),
            1, attempts⟩
      | none => ⟨.completedWithErrors "Task completed with errors", 1, attempts⟩
    else if td.status = "failed" then
      ⟨.taskFailed (jsOr td.error "Task execution failed"), 1, attempts⟩
    else if td.status = "processing" ∨ td.status = "pending" then
      if _h : attempts + 1 < maxAttempts then
        let r := pollGen env maxAttempts (attempts + 1) (k + 1)
        ⟨r.outcome, r.queries + 1, r.attempts⟩
      else
        ⟨.timedOut
          "Task timed out - please try again with a shorter URL or simpler content",
          1, attempts + 1⟩
    else
      if _h : attempts + 1 < maxAttempts then
        let r := pollGen env maxAttempts (attempts + 1) (k + 1)
        ⟨r.outcome, r.queries + 1, r.attempts⟩
      else
        ⟨.unknownTimedOut "Unknown task status - please try again", 1, attempts + 1⟩
termination_by maxAttempts - attempts
decreasing_by all_goals omega

/-- Feedback poller, translated from `pollFeedbackTask` in
src/Frontend/src/hooks/useFeedback.js (lines 92-154).  Only the
`status === "processing"` branch increments the counter and re-schedules
`poll`; "pending" is not matched and falls into the unknown-status branch,
which rejects immediately; the `catch` branch rejects immediately with the
network error; completed, failed and envelope-failure branches mirror the
generation poller, with `handleFeedbackResponse` as the success decoder
(it accepts `article && article_id`, or alternatively `article_data`, and
otherwise resolves null after setting an error). -/
def pollFeedback (env : Nat → StatusResp) (maxAttempts attempts k : Nat) :
    PollRes FbOutcome :=
  match env k with
  | .transportError => ⟨.transportRejected, 1, attempts⟩
  | .envFailure => ⟨.statusCheckFailed "Failed to check task status", 1, attempts⟩
  | .ok td =>
    if td.status = "completed" then
      match td.result with
      | some r =>
        if r.success then
          if r.article && r.article_id then ⟨.success r, 1, attempts⟩
          else if r.article_data then ⟨.success r, 1, attempts⟩
          else ⟨.invalidData "Invalid article data received from server", 1, attempts⟩
        else
          ⟨.completedWithErrors (jsOr r.error "Task completed with errors"),
            1, attempts⟩
      | none => ⟨.completedWithErrors "Task completed with errors", 1, attempts⟩
    else if td.status = "failed" then
      ⟨.taskFailed (jsOr td.error "Task execution failed"), 1, attempts⟩
    else if td.status = "processing" then
      if _h : attempts + 1 < maxAttempts then
        let r := pollFeedback env maxAttempts (attempts + 1) (k + 1)
        ⟨r.outcome, r.queries + 1, r.attempts⟩
      else
        ⟨.timedOut "Feedback task timed out - please try again", 1, attempts + 1⟩
    else
      ⟨.unknownStatus ("Unknown task status: " ++ td.status), 1, attempts⟩
termination_by maxAttempts - attempts
decreasing_by all_goals omega

/-- The `data` object of a submission-endpoint envelope.  `async` and
`task_id` drive the deferred-execution check
(`responseData.async && responseData.task_id`); the remaining booleans model
truthiness of the fields inspected by the synchronous response handlers
(`article_data` for `handleArticleResponse`, `article`/`article_id` and
`article_data` for `handleFeedbackResponse`). -/
structure RespData where
  async : Bool
  task_id : Option String
  article_data : Bool
  article : Bool
  article_id : Bool
deriving DecidableEq

/-- JavaScript truthiness of an optional string: absent and empty are falsy. -/
def strTruthy : Option String → Bool
  | none => false
  | some t => !(t == "")

/-- The deferred-execution check `responseData.async && responseData.task_id`
shared by both submitters. -/
def deferredData (d : RespData) : Bool := d.async && strTruthy d.task_id

/-- One response of a submission endpoint: a rejected request (the JS `catch`
path, carrying the first available backend message of the error chain, which
the source reads as `message || detail || ... || <default>`), or a fulfilled
envelope `{ success, message?, data }`. -/
inductive SubmitResp
  | transportError (msg : Option String)
  | envelope (success : Bool) (message : Option String) (data : RespData)
deriving DecidableEq

/-- Whether a submission response defers to a task handle: a successful
envelope whose data passes the `async && task_id` check. -/
def SubmitResp.isDeferred : SubmitResp → Bool
  | .envelope true _ d => deferredData d
  | _ => false

/-- Input of `requestArticle` (src/unnamed/part_000, lines 18-31).  Optional
fields model JS `undefined` for the defaulted entries. -/
structure GenRequestData where
  input_type : String
  input_value : String
  instruction : Option String
  force_refresh : Option Bool
  async : Option Bool
deriving DecidableEq

/-- Payload posted to the generation endpoint. -/
structure GenPayload where
  input_type : String
  input_value : String
  instruction : String
  force_refresh : Bool
  async : Bool
deriving DecidableEq

/-- Payload construction of `requestArticle` (part_000, lines 25-31):
`instruction: requestData.instruction || ""`,
`force_refresh: requestData.force_refresh || false`, and
`async: requestData.async !== false` (true unless the caller passes exactly
false — the commented default-to-true). -/
def genPayload (rd : GenRequestData) : GenPayload :=
  ⟨rd.input_type, rd.input_value, jsOr rd.instruction "",
    rd.force_refresh.getD false,
    match rd.async with
    | some false => false
    | _ => true⟩

/-- Section-name mapping of `sendFeedback`
(useFeedback.js, lines 21-29): `sectionMapping[section] || section`. -/
def sectionMapping (s : String) : String :=
  if s = "headline" then "headline"
  else if s = "project_details" then "details"
  else if s = "participants" then "participants"
  else if s = "lots" then "lots"
  else if s = "organizations" then "organizations"
  else s

/-- Payload posted to the feedback endpoint (useFeedback.js, lines 32-36):
`{ article_id, feedback: { [backendSection]: feedbackText },
async_processing: false }`.  The source hard-codes `async_processing: false`
("Use synchronous processing for immediate feedback"). -/
structure FeedbackPayload where
  article_id : String
  feedback_section : String
  feedback_text : String
  async_processing : Bool
deriving DecidableEq

/-- Builds the feedback payload exactly as `sendFeedback` does. -/
def feedbackPayload (articleId sectionName feedbackText : String) : FeedbackPayload :=
  ⟨articleId, sectionMapping sectionName, feedbackText, false⟩

/-- Submit-level outcomes of `requestArticle`: the sync-path article store,
the sync-path invalid-data error, the envelope-failure error, the `catch`
error, or the outcome of the delegated poll run. -/
inductive GenSubOutcome
  | syncSuccess (d : RespData)
  | syncInvalid (msg : String)
  | appRejected (msg : String)
  | transportFailed (msg : String)
  | fromPoll (o : GenOutcome)
deriving DecidableEq

/-- Submit-level outcomes of `sendFeedback`, mirroring `GenSubOutcome`. -/
inductive FbSubOutcome
  | syncResult (d : RespData)
  | syncInvalid (msg : String)
  | appRejected (msg : String)
  | transportFailed (msg : String)
  | fromPoll (o : FbOutcome)
deriving DecidableEq

/-- Result of one `requestArticle` call.  `outcomeAtResolve` is the terminal
outcome already delivered at the moment the promise returned by
`requestArticle` resolves; `eventualOutcome` is the single terminal outcome
the submission eventually delivers (via the `article`/`error` state);
`statusQueries` counts status-endpoint queries of the whole submission. -/
structure GenSubmit where
  payload : GenPayload
  outcomeAtResolve : Option GenSubOutcome
  eventualOutcome : GenSubOutcome
  statusQueries : Nat
deriving DecidableEq

/-- Synchronous-path handler `handleArticleResponse`
(part_000, lines 162-184): stores the article when `article_data` is present,
otherwise sets "Invalid article data received". -/
def genHandleResp (d : RespData) : GenSubOutcome :=
  if d.article_data then .syncSuccess d else .syncInvalid "Invalid article data received"

/-- Generation submitter, translated from `requestArticle`
(src/unnamed/part_000, lines 18-65) with the poller defaults
`maxAttempts = 60`, `interval = 3000` of line 70.  In the deferred branch the
source runs `await pollTaskStatus(task_id)`, but `pollTaskStatus` only starts
its recursive `poll` closure without awaiting it (line 156) and returns, so
the promise returned by `requestArticle` resolves before the poll run has
delivered any outcome: `outcomeAtResolve` is `none` there, and the terminal
outcome is delivered later through the state setters of the poll callbacks. -/
def requestArticle (rd : GenRequestData) (resp : SubmitResp)
    (env : Nat → StatusResp) : GenSubmit :=
  match resp with
  | .transportError m =>
    let o := GenSubOutcome.transportFailed (jsOr m "Failed to generate article")
    ⟨genPayload rd, some o, o, 0⟩
  | .envelope false msg _ =>
    let o := GenSubOutcome.appRejected (jsOr msg "Article generation failed")
    ⟨genPayload rd, some o, o, 0⟩
  | .envelope true _ d =>
    if deferredData d then
      let r := pollGen env 60 0 0
      ⟨genPayload rd, none, .fromPoll r.outcome, r.queries⟩
    else
      let o := genHandleResp d
      ⟨genPayload rd, some o, o, 0⟩

/-- Result of one `sendFeedback` call.  `submitPosts` counts submission
posts issued (the source posts unconditionally — it performs no payload
validation); `outcomeAtResolve` and `eventualOutcome` are as in
`GenSubmit`. -/
structure FbSubmit where
  payload : FeedbackPayload
  submitPosts : Nat
  outcomeAtResolve : Option FbSubOutcome
  eventualOutcome : FbSubOutcome
  statusQueries : Nat
deriving DecidableEq

/-- Synchronous-path handler `handleFeedbackResponse`
(useFeedback.js, lines 160-187): accepts `article && article_id`, or
alternatively `article_data`, and otherwise returns null after setting
"Invalid article data received from server". -/
def fbHandleResp (d : RespData) : FbSubOutcome :=
  if d.article && d.article_id then .syncResult d
  else if d.article_data then .syncResult d
  else .syncInvalid "Invalid article data received from server"

/-- Feedback submitter, translated from `sendFeedback`
(src/Frontend/src/hooks/useFeedback.js, lines 15-86) with the poller defaults
`maxAttempts = 15`, `interval = 2000` of lines 94-95.  The payload is built
and posted without any validation of the inputs.  In the deferred branch the
source runs `return await pollFeedbackTask(task_id)`, and `pollFeedbackTask`
returns a promise settled only by the poll run's terminal branches, so the
outcome is available when `sendFeedback` resolves.  The `catch` message chain
`message || detail || error || <default>` (plus serializer-error joining) is
collapsed to the first available backend message. -/
def sendFeedback (articleId sectionName feedbackText : String)
    (resp : SubmitResp) (env : Nat → StatusResp) : FbSubmit :=
  let p := feedbackPayload articleId sectionName feedbackText
  match resp with
  | .transportError m =>
    let o := FbSubOutcome.transportFailed (jsOr m "Failed to apply feedback")
    ⟨p, 1, some o, o, 0⟩
  | .envelope false msg _ =>
    let o := FbSubOutcome.appRejected (jsOr msg "Feedback application failed")
    ⟨p, 1, some o, o, 0⟩
  | .envelope true _ d =>
    if deferredData d then
      let r := pollFeedback env 15 0 0
      ⟨p, 1, some (.fromPoll r.outcome), .fromPoll r.outcome, r.queries⟩
    else
      let o := fbHandleResp d
      ⟨p, 1, some o, o, 0⟩

/-- Result of the generation form's submit handler. -/
inductive GenFormResult
  | validationError (msg : String)
  | submitted (g : GenSubmit)
deriving DecidableEq

/-- JavaScript `String.prototype.trim`, modelled on the character list:
whitespace is stripped from both ends of the string. -/
def jsTrim (s : String) : String :=
  ⟨((s.data.dropWhile Char.isWhitespace).reverse.dropWhile Char.isWhitespace).reverse⟩

/-- Form-level submit for generation, translated from `handleSubmit`
(src/Frontend/src/components/ArticleRequestForm.jsx, lines 18-38): an empty
(or whitespace-only) source URL fails fast with "Please enter a valid URL"
before `requestArticle` is invoked; otherwise `requestArticle` is called with
`input_type: "url"`, the trimmed inputs, `force_refresh: false` and
`async: true`.  The second component counts submission posts issued
(0 on validation failure, 1 once `requestArticle` posts). -/
def handleSubmit (rawContent instruction : String) (resp : SubmitResp)
    (env : Nat → StatusResp) : GenFormResult × Nat :=
  if jsTrim rawContent = "" then (.validationError "Please enter a valid URL", 0)
  else
    (.submitted (requestArticle
      ⟨"url", jsTrim rawContent, some (jsTrim instruction), some false, some true⟩
      resp env), 1)

/-- Outcome classes of the poller state machine, used to compare the two
pollers: classification follows the branch of the state machine that
produced the outcome (completed-with-embedded-success runs are one class
whatever the kind-specific result decoder then does with the payload). -/
inductive OutKind
  | embeddedSuccess
  | embeddedFailure
  | failedStatus
  | timeout
  | unknownFail
  | envelopeFail
  | transportFail
deriving DecidableEq

/-- State-machine class of a generation-poller outcome. -/
def GenOutcome.kind : GenOutcome → OutKind
  | .success _ => .embeddedSuccess
  | .invalidData _ => .embeddedSuccess
  | .completedWithErrors _ => .embeddedFailure
  | .taskFailed _ => .failedStatus
  | .timedOut _ => .timeout
  | .unknownTimedOut _ => .unknownFail
  | .statusCheckFailed _ => .envelopeFail
  | .pollErrorExhausted _ => .transportFail

/-- State-machine class of a feedback-poller outcome. -/
def FbOutcome.kind : FbOutcome → OutKind
  | .success _ => .embeddedSuccess
  | .invalidData _ => .embeddedSuccess
  | .completedWithErrors _ => .embeddedFailure
  | .taskFailed _ => .failedStatus
  | .timedOut _ => .timeout
  | .unknownStatus _ => .unknownFail
  | .statusCheckFailed _ => .envelopeFail
  | .transportRejected => .transportFail

/-- Status responses on which the two pollers take structurally matching
branches: fulfilled envelopes that are failures or carry a completed, failed
or processing status.  Transport errors, "pending" and unrecognized statuses
are excluded — there the two pollers genuinely diverge. -/
def agreeableResp (r : StatusResp) : Prop :=
  match r with
  | .transportError => False
  | .envFailure => True
  | .ok td => td.status = "completed" ∨ td.status = "failed" ∨ td.status = "processing"

/-- Environment whose every status query answers "pending". -/
def allPendingEnv : Nat → StatusResp := fun _ => .ok ⟨"pending", none, none⟩

/-- Environment whose every status query answers "processing". -/
def allProcessingEnv : Nat → StatusResp := fun _ => .ok ⟨"processing", none, none⟩

/-- Environment whose every status query fails at the transport level. -/
def allTransportEnv : Nat → StatusResp := fun _ => .transportError

/-- Environment whose every status query returns an envelope with
`success: false`. -/
def allEnvFailEnv : Nat → StatusResp := fun _ => .envFailure

/-- Environment whose every status query answers the unrecognized status
"queued". -/
def allQueuedEnv : Nat → StatusResp := fun _ => .ok ⟨"queued", none, none⟩

/-- An embedded task result signalling success with decodable payload. -/
def resultOk : TaskResult := ⟨true, none, true, true, true⟩

/-- Environment whose every status query answers "completed" with an
embedded successful result. -/
def allCompletedEnv : Nat → StatusResp := fun _ => .ok ⟨"completed", some resultOk, none⟩

/-- A deferred submission response carrying task id "t1". -/
def respDeferred : SubmitResp := .envelope true none ⟨true, some "t1", false, false, false⟩

/-- A sample generation request with no explicit `async` choice. -/
def rdSample : GenRequestData := ⟨"url", "https://example.com/post", none, none, none⟩

/-- An embedded task result signalling failure with message "boom". -/
def resultErr : TaskResult := ⟨false, some "boom", false, false, false⟩

/-- Environment whose every status query answers "completed" with an
embedded failure. -/
def completedErrEnv : Nat → StatusResp := fun _ => .ok ⟨"completed", some resultErr, none⟩

/-- Attempt-budget bound for the generation poller: starting below the
budget, a run issues at most `maxAttempts - attempts` further queries and the
counter never passes `maxAttempts`. -/
theorem pollGen_bound (env : Nat → StatusResp) :
    ∀ n M a k, M - a = n → a < M →
      (pollGen env M a k).queries ≤ M - a ∧ (pollGen env M a k).attempts ≤ M := by
  intro n
  induction n with
  | zero => intro M a k hn ha; omega
  | succ n ih =>
    intro M a k hn ha
    rw [pollGen.eq_def]
    cases henv : env k with
    | transportError =>
      by_cases hb : a + 1 < M
      · have := ih M (a + 1) (k + 1) (by omega) (by omega)
        simp [hb]
        omega
      · simp [hb]
        omega
    | envFailure => simp; omega
    | ok td =>
      by_cases hc : td.status = "completed"
      · simp [hc]
        cases td.result with
        | some r =>
          by_cases hs : r.success
          · by_cases hd : r.article_data <;> simp [hs, hd] <;> omega
          · simp [hs]; omega
        | none => simp; omega
      · by_cases hf : td.status = "failed"
        · simp [hc, hf]; omega
        · by_cases hp : td.status = "processing" ∨ td.status = "pending"
          · by_cases hb : a + 1 < M
            · have := ih M (a + 1) (k + 1) (by omega) (by omega)
              simp [hc, hf, hp, hb]
              omega
            · simp [hc, hf, hp, hb]; omega
          · by_cases hb : a + 1 < M
            · have := ih M (a + 1) (k + 1) (by omega) (by omega)
              simp [hc, hf, hp, hb]
              omega
            · simp [hc, hf, hp, hb]; omega

/-- Attempt-budget bound for the feedback poller, mirrorring
`pollGen_bound`. -/
theorem pollFeedback_bound (env : Nat → StatusResp) :
    ∀ n M a k, M - a = n → a < M →
      (pollFeedback env M a k).queries ≤ M - a ∧
        (pollFeedback env M a k).attempts ≤ M := by
  intro n
  induction n with
  | zero => intro M a k hn ha; omega
  | succ n ih =>
    intro M a k hn ha
    rw [pollFeedback.eq_def]
    cases henv : env k with
    | transportError => simp; omega
    | envFailure => simp; omega
    | ok td =>
      by_cases hc : td.status = "completed"
      · simp [hc]
        cases td.result with
        | some r =>
          by_cases hs : r.success
          · by_cases hA : r.article <;> by_cases hI : r.article_id <;>
              by_cases hd2 : r.article_data <;> simp [hs, hA, hI, hd2] <;> omega
          · simp [hs]; omega
        | none => simp; omega
      · by_cases hf : td.status = "failed"
        · simp [hc, hf]; omega
        · by_cases hp : td.status = "processing"
          · by_cases hb : a + 1 < M
            · have := ih M (a + 1) (k + 1) (by omega) (by omega)
              simp [hc, hf, hp, hb]
              omega
            · simp [hc, hf, hp, hb]; omega
          · simp [hc, hf, hp]; omega

/-- On response sequences where both pollers take structurally matching
branches, the two runs produce the same outcome class, the same number of
status queries and the same final counter value. -/
theorem pollAgreeAux (env : Nat → StatusResp) (hag : ∀ j, agreeableResp (env j)) :
    ∀ n M a k, M - a = n →
      (pollGen env M a k).outcome.kind = (pollFeedback env M a k).outcome.kind ∧
      (pollGen env M a k).queries = (pollFeedback env M a k).queries ∧
      (pollGen env M a k).attempts = (pollFeedback env M a k).attempts := by
  intro n
  induction n with
  | zero =>
    intro M a k hn
    rw [pollGen.eq_def, pollFeedback.eq_def]
    have hk := hag k
    cases henv : env k with
    | transportError => rw [henv] at hk; exact absurd hk (by simp [agreeableResp])
    | envFailure => simp [GenOutcome.kind, FbOutcome.kind]
    | ok td =>
      rw [henv] at hk
      simp only [agreeableResp] at hk
      rcases hk with hc | hf | hp
      · simp only [hc, if_pos rfl]
        cases td.result with
        | some r =>
          by_cases hs : r.success
          · by_cases hA : r.article <;> by_cases hI : r.article_id <;>
              by_cases hd : r.article_data <;>
              simp [hs, hA, hI, hd, GenOutcome.kind, FbOutcome.kind]
          · simp [hs, GenOutcome.kind, FbOutcome.kind]
        | none => simp [GenOutcome.kind, FbOutcome.kind]
      · have hc : td.status ≠ "completed" := by rw [hf]; decide
        simp [hc, hf, GenOutcome.kind, FbOutcome.kind]
      · have hc : td.status ≠ "completed" := by rw [hp]; decide
        have hf : td.status ≠ "failed" := by rw [hp]; decide
        have hb : ¬ a + 1 < M := by omega
        simp [hc, hf, hp, hb, GenOutcome.kind, FbOutcome.kind]
  | succ n ih =>
    intro M a k hn
    rw [pollGen.eq_def, pollFeedback.eq_def]
    have hk := hag k
    cases henv : env k with
    | transportError => rw [henv] at hk; exact absurd hk (by simp [agreeableResp])
    | envFailure => simp [GenOutcome.kind, FbOutcome.kind]
    | ok td =>
      rw [henv] at hk
      simp only [agreeableResp] at hk
      rcases hk with hc | hf | hp
      · simp only [hc, if_pos rfl]
        cases td.result with
        | some r =>
          by_cases hs : r.success
          · by_cases hA : r.article <;> by_cases hI : r.article_id <;>
              by_cases hd : r.article_data <;>
              simp [hs, hA, hI, hd, GenOutcome.kind, FbOutcome.kind]
          · simp [hs, GenOutcome.kind, FbOutcome.kind]
        | none => simp [GenOutcome.kind, FbOutcome.kind]
      · have hc : td.status ≠ "completed" := by rw [hf]; decide
        simp [hc, hf, GenOutcome.kind, FbOutcome.kind]
      · have hc : td.status ≠ "completed" := by rw [hp]; decide
        have hf : td.status ≠ "failed" := by rw [hp]; decide
        by_cases hb : a + 1 < M
        · obtain ⟨ih1, ih2, ih3⟩ := ih M (a + 1) (k + 1) (by omega)
          simp [hc, hf, hp, hb, ih1, ih2, ih3]
        · simp [hc, hf, hp, hb, GenOutcome.kind, FbOutcome.kind]

/-- Step equation of the generation poller on a completed status. -/
theorem pollGen_completed_eq (env : Nat → StatusResp) (M a k : Nat) (td : TaskData)
    (h : env k = .ok td) (hc : td.status = "completed") :
    pollGen env M a k =
      (match td.result with
      | some r =>
        if r.success then
          if r.article_data then ⟨.success r, 1, a⟩
          else ⟨.invalidData "Invalid article data received", 1, a⟩
        else ⟨.completedWithErrors (jsOr r.error "Task completed with errors"), 1, a⟩
      | none => ⟨.completedWithErrors "Task completed with errors", 1, a⟩) := by
  rw [pollGen.eq_def, h]
  simp [hc]

/-- Step equation of the feedback poller on a completed status. -/
theorem pollFeedback_completed_eq (env : Nat → StatusResp) (M a k : Nat) (td : TaskData)
    (h : env k = .ok td) (hc : td.status = "completed") :
    pollFeedback env M a k =
      (match td.result with
      | some r =>
        if r.success then
          if r.article && r.article_id then ⟨.success r, 1, a⟩
          else if r.article_data then ⟨.success r, 1, a⟩
          else ⟨.invalidData "Invalid article data received from server", 1, a⟩
        else ⟨.completedWithErrors (jsOr r.error "Task completed with errors"), 1, a⟩
      | none => ⟨.completedWithErrors "Task completed with errors", 1, a⟩) := by
  rw [pollFeedback.eq_def, h]
  simp [hc]

/-- Claim C1 (amended): `sendFeedback` suspends until a terminal Outcome is
available and resolves with it (exactly one outcome per run); `requestArticle`
also delivers exactly one eventual outcome per submission, but when the
submission response defers to a task handle, its promise resolves before the
poll run has produced the terminal outcome — the outcome at resolution time is
`none` and the poll outcome is delivered afterwards through state. -/
theorem submit_resolution_c1 :
    (∀ articleId sectionName feedbackText resp env,
      (sendFeedback articleId sectionName feedbackText resp env).outcomeAtResolve =
        some (sendFeedback articleId sectionName feedbackText resp env).eventualOutcome) ∧
    (∀ rd resp env, resp.isDeferred = true →
      (requestArticle rd resp env).outcomeAtResolve = none ∧
      (requestArticle rd resp env).eventualOutcome =
        .fromPoll (pollGen env 60 0 0).outcome) := by
  constructor
  · intro aid s txt resp env
    cases resp with
    | transportError m => rfl
    | envelope success msg d =>
      cases success
      · rfl
      · by_cases hd : deferredData d <;> simp [sendFeedback, hd]
  · intro rd resp env hdef
    cases resp with
    | transportError m => simp [SubmitResp.isDeferred] at hdef
    | envelope success msg d =>
      cases success
      · simp [SubmitResp.isDeferred] at hdef
      · simp only [SubmitResp.isDeferred] at hdef
        simp [requestArticle, hdef]

/-- Witness for C1 at a concrete deferred submission and environment. -/
theorem submit_resolution_c1_witness :
    (sendFeedback "a1" "headline" "better" respDeferred allCompletedEnv).outcomeAtResolve =
      some (sendFeedback "a1" "headline" "better" respDeferred allCompletedEnv).eventualOutcome ∧
    (requestArticle rdSample respDeferred allCompletedEnv).outcomeAtResolve = none ∧
    (requestArticle rdSample respDeferred allCompletedEnv).eventualOutcome =
      .fromPoll (pollGen allCompletedEnv 60 0 0).outcome :=
  ⟨submit_resolution_c1.1 "a1" "headline" "better" respDeferred allCompletedEnv,
   submit_resolution_c1.2 rdSample respDeferred allCompletedEnv (by decide)⟩

/-- Counterexample to C1 as stated: on a valid generation request whose
submission response defers to task "t1", the promise returned by
`requestArticle` resolves with no outcome delivered yet (`outcomeAtResolve` is
`none`), even though the poll run later delivers a successful outcome — the
submit operation does resolve before the poll run has produced its terminal
outcome. -/
theorem requestArticle_resolves_early_cex :
    respDeferred.isDeferred = true ∧
    (requestArticle rdSample respDeferred allCompletedEnv).outcomeAtResolve = none ∧
    (requestArticle rdSample respDeferred allCompletedEnv).eventualOutcome =
      .fromPoll (.success resultOk) := by
  refine ⟨by decide, ?_, ?_⟩
  · simp [requestArticle, respDeferred, deferredData, strTruthy]
  · simp [requestArticle, respDeferred, deferredData, strTruthy, pollGen,
      allCompletedEnv, resultOk]

/-- Claim C2 (amended): in the generation poller a transport error during one
status query increments the attempt counter and continues with the next cycle
while attempts remain, and produces the terminal unreachable failure only on
exhaustion; the feedback poller instead terminates immediately on the first
transport error, rejecting with the network error regardless of the remaining
attempt budget. -/
theorem transport_error_c2 (env : Nat → StatusResp) (M a k : Nat)
    (h : env k = .transportError) :
    (a + 1 < M →
      pollGen env M a k =
        ⟨(pollGen env M (a + 1) (k + 1)).outcome,
          (pollGen env M (a + 1) (k + 1)).queries + 1,
          (pollGen env M (a + 1) (k + 1)).attempts⟩) ∧
    (M ≤ a + 1 →
      pollGen env M a k =
        ⟨.pollErrorExhausted "Failed to check task status - please try again",
          1, a + 1⟩) ∧
    pollFeedback env M a k = ⟨.transportRejected, 1, a⟩ := by
  refine ⟨fun hb => ?_, fun hb => ?_, ?_⟩
  · rw [pollGen.eq_def, h]; simp [hb]
  · rw [pollGen.eq_def, h]; simp [show ¬ a + 1 < M by omega]
  · rw [pollFeedback.eq_def, h]

/-- Witness for C2 at a concrete transport-failing environment. -/
theorem transport_error_c2_witness :
    pollGen allTransportEnv 2 0 0 =
      ⟨(pollGen allTransportEnv 2 1 1).outcome,
        (pollGen allTransportEnv 2 1 1).queries + 1,
        (pollGen allTransportEnv 2 1 1).attempts⟩ ∧
    pollFeedback allTransportEnv 2 0 0 = ⟨.transportRejected, 1, 0⟩ :=
  ⟨(transport_error_c2 allTransportEnv 2 0 0 rfl).1 (by omega),
   (transport_error_c2 allTransportEnv 2 0 0 rfl).2.2⟩

/-- Counterexample to C2 as stated: with the feedback defaults
(`maxAttempts = 15`) and a transport error on the very first status query, the
feedback poll run terminates immediately after one query, with the counter
still at 0 and 14 attempts remaining — the transport error is fatal to the
run even though attempts remain. -/
theorem transport_error_feedback_cex :
    pollFeedback allTransportEnv 15 0 0 = ⟨.transportRejected, 1, 0⟩ ∧
    (1 : Nat) < 15 := by
  constructor
  · simp [pollFeedback, allTransportEnv]
  · omega

/-- Claim C3 (amended): in the generation poller an unrecognized status string
is treated like Processing — the attempt counter is incremented and polling
continues within the attempt budget; the feedback poller instead rejects an
unrecognized status immediately with an "Unknown task status" failure, without
incrementing the counter and regardless of the remaining budget. -/
theorem unknown_status_c3 (env : Nat → StatusResp) (M a k : Nat) (td : TaskData)
    (h : env k = .ok td) (h1 : td.status ≠ "completed") (h2 : td.status ≠ "failed")
    (h3 : td.status ≠ "processing") (h4 : td.status ≠ "pending") :
    (a + 1 < M →
      pollGen env M a k =
        ⟨(pollGen env M (a + 1) (k + 1)).outcome,
          (pollGen env M (a + 1) (k + 1)).queries + 1,
          (pollGen env M (a + 1) (k + 1)).attempts⟩) ∧
    (M ≤ a + 1 →
      pollGen env M a k =
        ⟨.unknownTimedOut "Unknown task status - please try again", 1, a + 1⟩) ∧
    pollFeedback env M a k =
      ⟨.unknownStatus ("Unknown task status: " ++ td.status), 1, a⟩ := by
  have hp : ¬ (td.status = "processing" ∨ td.status = "pending") := by tauto
  refine ⟨fun hb => ?_, fun hb => ?_, ?_⟩
  · rw [pollGen.eq_def, h]; simp [h1, h2, hp, hb]
  · rw [pollGen.eq_def, h]; simp [h1, h2, hp, show ¬ a + 1 < M by omega]
  · rw [pollFeedback.eq_def, h]; simp [h1, h2, h3]

/-- Witness for C3 at the unrecognized status "queued". -/
theorem unknown_status_c3_witness :
    pollGen allQueuedEnv 2 0 0 =
      ⟨(pollGen allQueuedEnv 2 1 1).outcome,
        (pollGen allQueuedEnv 2 1 1).queries + 1,
        (pollGen allQueuedEnv 2 1 1).attempts⟩ ∧
    pollFeedback allQueuedEnv 2 0 0 =
      ⟨.unknownStatus ("Unknown task status: " ++ "queued"), 1, 0⟩ :=
  ⟨(unknown_status_c3 allQueuedEnv 2 0 0 ⟨"queued", none, none⟩ rfl
      (by decide) (by decide) (by decide) (by decide)).1 (by omega),
   (unknown_status_c3 allQueuedEnv 2 0 0 ⟨"queued", none, none⟩ rfl
      (by decide) (by decide) (by decide) (by decide)).2.2⟩

/-- Counterexample to C3 as stated: with the feedback defaults and every query
answering the unrecognized status "queued", the feedback poll run terminates
immediately after one query with an "Unknown task status" failure instead of
continuing within the attempt budget. -/
theorem unknown_status_feedback_cex :
    pollFeedback allQueuedEnv 15 0 0 =
      ⟨.unknownStatus "Unknown task status: queued", 1, 0⟩ ∧
    (1 : Nat) < 15 := by
  constructor
  · simp [pollFeedback, allQueuedEnv]
  · omega

/-- Claim C4 (amended): the generation poller increments the counter and
schedules another cycle on "processing" or "pending" while attempts remain,
and on exhaustion produces the distinct timeout outcome (the `timedOut`
constructor, not the `taskFailed`/`completedWithErrors` job-failure
outcomes).  The feedback poller does the same for "processing" only; it
treats "pending" as an unrecognized status and rejects it immediately with
"Unknown task status: pending" instead of retrying. -/
theorem processing_pending_c4 (env : Nat → StatusResp) (M a k : Nat) (td : TaskData)
    (h : env k = .ok td) :
    (td.status = "processing" ∨ td.status = "pending" →
      (a + 1 < M →
        pollGen env M a k =
          ⟨(pollGen env M (a + 1) (k + 1)).outcome,
            (pollGen env M (a + 1) (k + 1)).queries + 1,
            (pollGen env M (a + 1) (k + 1)).attempts⟩) ∧
      (M ≤ a + 1 →
        pollGen env M a k =
          ⟨.timedOut
            "Task timed out - please try again with a shorter URL or simpler content",
            1, a + 1⟩)) ∧
    (td.status = "processing" →
      (a + 1 < M →
        pollFeedback env M a k =
          ⟨(pollFeedback env M (a + 1) (k + 1)).outcome,
            (pollFeedback env M (a + 1) (k + 1)).queries + 1,
            (pollFeedback env M (a + 1) (k + 1)).attempts⟩) ∧
      (M ≤ a + 1 →
        pollFeedback env M a k =
          ⟨.timedOut "Feedback task timed out - please try again", 1, a + 1⟩)) ∧
    (td.status = "pending" →
      pollFeedback env M a k =
        ⟨.unknownStatus "Unknown task status: pending", 1, a⟩) := by
  refine ⟨fun hp => ⟨fun hb => ?_, fun hb => ?_⟩, fun hp => ⟨fun hb => ?_, fun hb => ?_⟩, fun hp => ?_⟩
  · have h1 : td.status ≠ "completed" := by rcases hp with hp | hp <;> rw [hp] <;> decide
    have h2 : td.status ≠ "failed" := by rcases hp with hp | hp <;> rw [hp] <;> decide
    rw [pollGen.eq_def, h]; simp [h1, h2, hp, hb]
  · have h1 : td.status ≠ "completed" := by rcases hp with hp | hp <;> rw [hp] <;> decide
    have h2 : td.status ≠ "failed" := by rcases hp with hp | hp <;> rw [hp] <;> decide
    rw [pollGen.eq_def, h]; simp [h1, h2, hp, show ¬ a + 1 < M by omega]
  · have h1 : td.status ≠ "completed" := by rw [hp]; decide
    have h2 : td.status ≠ "failed" := by rw [hp]; decide
    rw [pollFeedback.eq_def, h]; simp [h1, h2, hp, hb]
  · have h1 : td.status ≠ "completed" := by rw [hp]; decide
    have h2 : td.status ≠ "failed" := by rw [hp]; decide
    rw [pollFeedback.eq_def, h]; simp [h1, h2, hp, show ¬ a + 1 < M by omega]
  · have h1 : td.status ≠ "completed" := by rw [hp]; decide
    have h2 : td.status ≠ "failed" := by rw [hp]; decide
    have h3 : td.status ≠ "processing" := by rw [hp]; decide
    rw [pollFeedback.eq_def, h]; simp [h1, h2, h3, hp]

/-- Witness for C4: exhaustion on "processing" yields the timeout outcome in
both pollers, and "pending" is rejected immediately by the feedback poller. -/
theorem processing_pending_c4_witness :
    pollGen allProcessingEnv 1 0 0 =
      ⟨.timedOut
        "Task timed out - please try again with a shorter URL or simpler content",
        1, 1⟩ ∧
    pollFeedback allProcessingEnv 1 0 0 =
      ⟨.timedOut "Feedback task timed out - please try again", 1, 1⟩ ∧
    pollFeedback allPendingEnv 5 0 0 =
      ⟨.unknownStatus "Unknown task status: pending", 1, 0⟩ :=
  ⟨((processing_pending_c4 allProcessingEnv 1 0 0 ⟨"processing", none, none⟩ rfl).1
      (Or.inl rfl)).2 (by omega),
   ((processing_pending_c4 allProcessingEnv 1 0 0 ⟨"processing", none, none⟩ rfl).2.1
      rfl).2 (by omega),
   (processing_pending_c4 allPendingEnv 5 0 0 ⟨"pending", none, none⟩ rfl).2.2 rfl⟩

/-- Counterexample to C4 as stated: with the feedback defaults and a first
status query answering "pending", the feedback poll run does not increment
the counter and schedule another cycle — it terminates immediately after one
query with an "Unknown task status: pending" rejection. -/
theorem pending_feedback_cex :
    pollFeedback allPendingEnv 15 0 0 =
      ⟨.unknownStatus "Unknown task status: pending", 1, 0⟩ ∧
    (1 : Nat) < 15 := by
  constructor
  · simp [pollFeedback, allPendingEnv]
  · omega

/-- Claim C5 (confirmed): for every poll run of either job kind started below
the attempt budget, the number of status queries issued never exceeds
`maxAttempts` and the attempt counter never exceeds `maxAttempts`; in the
spec's example, with `maxAttempts = 3` and every query answering "pending",
the generation poller makes exactly 3 queries and no 4th is issued. -/
theorem attempt_budget_c5 (env : Nat → StatusResp) (M a k : Nat) (h : a < M) :
    (pollGen env M a k).queries ≤ M ∧ (pollGen env M a k).attempts ≤ M ∧
    (pollFeedback env M a k).queries ≤ M ∧ (pollFeedback env M a k).attempts ≤ M ∧
    (pollGen allPendingEnv 3 0 0).queries = 3 := by
  have hg := pollGen_bound env (M - a) M a k rfl h
  have hf := pollFeedback_bound env (M - a) M a k rfl h
  refine ⟨by omega, hg.2, by omega, hf.2, ?_⟩
  simp [pollGen, allPendingEnv]

/-- Witness for C5 at the spec's example run. -/
theorem attempt_budget_c5_witness :
    (0 : Nat) < 3 ∧
    ((pollGen allPendingEnv 3 0 0).queries ≤ 3 ∧
      (pollGen allPendingEnv 3 0 0).attempts ≤ 3 ∧
      (pollFeedback allPendingEnv 3 0 0).queries ≤ 3 ∧
      (pollFeedback allPendingEnv 3 0 0).attempts ≤ 3 ∧
      (pollGen allPendingEnv 3 0 0).queries = 3) :=
  ⟨by omega, attempt_budget_c5 allPendingEnv 3 0 0 (by omega)⟩

/-- Claim C6 (amended): a Generation submission with an empty (or
whitespace-only) source reference fails fast in the form's submit handler with
"Please enter a valid URL" and zero network calls; the feedback hook's
`sendFeedback`, by contrast, performs no payload validation at all — it
always builds the payload from its raw inputs and issues the submission post,
also when the revision text or the article identifier is empty. -/
theorem validation_c6 :
    (∀ rawContent instruction resp env, jsTrim rawContent = "" →
      handleSubmit rawContent instruction resp env =
        (.validationError "Please enter a valid URL", 0)) ∧
    (∀ articleId sectionName feedbackText resp env,
      (sendFeedback articleId sectionName feedbackText resp env).submitPosts = 1 ∧
      (sendFeedback articleId sectionName feedbackText resp env).payload =
        feedbackPayload articleId sectionName feedbackText) := by
  constructor
  · intro raw instr resp env hval
    simp [handleSubmit, hval]
  · intro aid s txt resp env
    cases resp with
    | transportError m => exact ⟨rfl, rfl⟩
    | envelope success msg d =>
      cases success
      · exact ⟨rfl, rfl⟩
      · by_cases hd : deferredData d <;> simp [sendFeedback, hd]

/-- Witness for C6: the empty source reference is rejected with no network
call, and a feedback submission with empty revision text still posts. -/
theorem validation_c6_witness :
    handleSubmit "" "style it" respDeferred allProcessingEnv =
      (.validationError "Please enter a valid URL", 0) ∧
    (sendFeedback "a1" "headline" "" respDeferred allProcessingEnv).submitPosts = 1 :=
  ⟨validation_c6.1 "" "style it" respDeferred allProcessingEnv rfl,
   (validation_c6.2 "a1" "headline" "" respDeferred allProcessingEnv).1⟩

/-- Counterexample to C6 as stated: submitting Feedback with empty revision
text issues one network call (the payload, carrying the empty text, is posted
unconditionally), not zero, and no InvalidInput failure is produced. -/
theorem feedback_no_validation_cex :
    (sendFeedback "a1" "headline" "" respDeferred allProcessingEnv).submitPosts = 1 ∧
    (sendFeedback "a1" "headline" "" respDeferred allProcessingEnv).payload =
      ⟨"a1", "headline", "", false⟩ := by
  constructor <;> rfl

/-- Claim C7 (confirmed): for every poll run of either job kind observing the
outer status "completed", the embedded result is inspected: a `success`
outcome is produced only when the embedded result signals success; if the
embedded result signals failure, the run produces the job-failure outcome
carrying the embedded error message (or its default); an absent embedded
result never yields success — the outer completed status alone is never
enough. -/
theorem completed_result_c7 (env : Nat → StatusResp) (M a k : Nat) (td : TaskData)
    (h : env k = .ok td) (hc : td.status = "completed") :
    (∀ r, (pollGen env M a k).outcome = .success r →
      td.result = some r ∧ r.success = true) ∧
    (∀ r, (pollFeedback env M a k).outcome = .success r →
      td.result = some r ∧ r.success = true) ∧
    (∀ r m, td.result = some r → r.success = false → r.error = some m → m ≠ "" →
      (pollGen env M a k).outcome = .completedWithErrors m ∧
      (pollFeedback env M a k).outcome = .completedWithErrors m) ∧
    (td.result = none →
      (pollGen env M a k).outcome = .completedWithErrors "Task completed with errors" ∧
      (pollFeedback env M a k).outcome =
        .completedWithErrors "Task completed with errors") := by
  rw [pollGen_completed_eq env M a k td h hc, pollFeedback_completed_eq env M a k td h hc]
  refine ⟨?_, ?_, ?_, ?_⟩
  · intro r hr
    cases hres : td.result with
    | none => rw [hres] at hr; simp at hr
    | some r0 =>
      rw [hres] at hr
      by_cases hs : r0.success
      · by_cases hd : r0.article_data
        · simp [hs, hd] at hr
          subst hr
          exact ⟨rfl, hs⟩
        · simp [hs, hd] at hr
      · simp [hs] at hr
  · intro r hr
    cases hres : td.result with
    | none => rw [hres] at hr; simp at hr
    | some r0 =>
      rw [hres] at hr
      by_cases hs : r0.success
      · by_cases hA : r0.article
        · by_cases hI : r0.article_id
          · simp [hs, hA, hI] at hr
            subst hr
            exact ⟨rfl, hs⟩
          · by_cases hd : r0.article_data
            · simp [hs, hA, hI, hd] at hr
              subst hr
              exact ⟨rfl, hs⟩
            · simp [hs, hA, hI, hd] at hr
        · by_cases hd : r0.article_data
          · simp [hs, hA, hd] at hr
            subst hr
            exact ⟨rfl, hs⟩
          · simp [hs, hA, hd] at hr
      · simp [hs] at hr
  · intro r m hres hs herr hm
    rw [hres]
    have : jsOr r.error "Task completed with errors" = m := by
      rw [herr]; simp [jsOr, hm]
    simp [hs, this]
  · intro hres
    rw [hres]
    exact ⟨rfl, rfl⟩

/-- Witness for C7: a completed status embedding a failed result with message
"boom" yields the job-failure outcome carrying "boom" in both pollers. -/
theorem completed_result_c7_witness :
    (pollGen completedErrEnv 7 0 0).outcome = .completedWithErrors "boom" ∧
    (pollFeedback completedErrEnv 7 0 0).outcome = .completedWithErrors "boom" :=
  (completed_result_c7 completedErrEnv 7 0 0 ⟨"completed", some resultErr, none⟩
    rfl rfl).2.2.1 resultErr "boom" rfl rfl rfl (by decide)

/-- Claim C8 (amended): run with the same `PollConfig` over the same
status-response sequence, the two pollers agree — same outcome class of the
poll state machine, same number of status queries, same final counter — on
every sequence of envelope failures and completed/failed/processing statuses;
but their state-machine logic is not identical beyond the configured
defaults: they diverge on "pending", on unrecognized status strings, and on
transport errors, where outcome and query count can differ. -/
theorem poller_agreement_c8 (env : Nat → StatusResp)
    (hag : ∀ j, agreeableResp (env j)) (M a k : Nat) :
    (pollGen env M a k).outcome.kind = (pollFeedback env M a k).outcome.kind ∧
    (pollGen env M a k).queries = (pollFeedback env M a k).queries ∧
    (pollGen env M a k).attempts = (pollFeedback env M a k).attempts :=
  pollAgreeAux env hag (M - a) M a k rfl

/-- Witness for C8 on an all-"processing" sequence with a shared budget. -/
theorem poller_agreement_c8_witness :
    (pollGen allProcessingEnv 2 0 0).outcome.kind =
      (pollFeedback allProcessingEnv 2 0 0).outcome.kind ∧
    (pollGen allProcessingEnv 2 0 0).queries =
      (pollFeedback allProcessingEnv 2 0 0).queries ∧
    (pollGen allProcessingEnv 2 0 0).attempts =
      (pollFeedback allProcessingEnv 2 0 0).attempts :=
  poller_agreement_c8 allProcessingEnv
    (fun j => by simp [allProcessingEnv, agreeableResp]) 2 0 0

/-- Counterexample to C8 as stated: with the same `PollConfig`
(`maxAttempts = 3`) and the same response sequence (every query answers
"pending"), the generation poller issues 3 status queries and times out while
the feedback poller issues a single query and rejects with an unknown-status
failure — neither the outcome nor the number of queries coincides. -/
theorem poller_divergence_cex :
    (pollGen allPendingEnv 3 0 0).queries = 3 ∧
    (pollFeedback allPendingEnv 3 0 0).queries = 1 ∧
    (pollGen allPendingEnv 3 0 0).outcome =
      .timedOut
        "Task timed out - please try again with a shorter URL or simpler content" ∧
    (pollFeedback allPendingEnv 3 0 0).outcome =
      .unknownStatus "Unknown task status: pending" := by
  refine ⟨?_, ?_, ?_, ?_⟩ <;> simp [pollGen, pollFeedback, allPendingEnv]

/-- Claim C9 (amended): the generation submission payload prefers
asynchronous execution by default — `async` is true unless the caller passes
exactly false; the feedback submission payload never prefers asynchronous
execution — `async_processing` is hard-coded to false for every feedback
submission, with no caller opt-in. -/
theorem prefer_async_c9 :
    (∀ rd : GenRequestData, rd.async ≠ some false → (genPayload rd).async = true) ∧
    (∀ articleId sectionName feedbackText,
      (feedbackPayload articleId sectionName feedbackText).async_processing = false) := by
  constructor
  · intro rd h
    cases hA : rd.async with
    | none => simp [genPayload, hA]
    | some b =>
      cases b
      · exact absurd hA h
      · simp [genPayload, hA]
  · intro aid s txt
    rfl

/-- Witness for C9: a generation request with no explicit `async` choice gets
`async = true`; a feedback payload gets `async_processing = false`. -/
theorem prefer_async_c9_witness :
    (genPayload rdSample).async = true ∧
    (feedbackPayload "a1" "headline" "better").async_processing = false :=
  ⟨prefer_async_c9.1 rdSample (by decide),
   prefer_async_c9.2 "a1" "headline" "better"⟩

/-- Counterexample to C9 as stated: a feedback submission in which the caller
did not opt out of asynchronous execution still posts
`async_processing = false` — the preferAsync hint does not default to true
for Feedback. -/
theorem feedback_sync_cex :
    (sendFeedback "a1" "headline" "better" respDeferred allProcessingEnv).payload.async_processing
      = false ∧
    feedbackPayload "a1" "headline" "better" = ⟨"a1", "headline", "better", false⟩ := by
  constructor <;> rfl

/-- Claim C10 (confirmed): in both pollers a status-endpoint response whose
envelope carries `success: false` terminates the run immediately with the
"Failed to check task status" failure: exactly one query is consumed, the
attempt counter is not incremented, and none of the remaining attempt budget
is used. -/
theorem envelope_failure_c10 (env : Nat → StatusResp) (M a k : Nat)
    (h : env k = .envFailure) :
    pollGen env M a k = ⟨.statusCheckFailed "Failed to check task status", 1, a⟩ ∧
    pollFeedback env M a k =
      ⟨.statusCheckFailed "Failed to check task status", 1, a⟩ := by
  constructor
  · rw [pollGen.eq_def, h]
  · rw [pollFeedback.eq_def, h]

/-- Witness for C10 at a concrete envelope-failure environment, inside a
large remaining budget. -/
theorem envelope_failure_c10_witness :
    pollGen allEnvFailEnv 60 5 5 =
      ⟨.statusCheckFailed "Failed to check task status", 1, 5⟩ ∧
    pollFeedback allEnvFailEnv 60 5 5 =
      ⟨.statusCheckFailed "Failed to check task status", 1, 5⟩ :=
  envelope_failure_c10 allEnvFailEnv 60 5 5 rfl
